import Mathlib

set_option autoImplicit false

/-!
Shallow embedding of the sentiment-analysis dashboard in `src/app.py`
(the analyze-button handler, lines 65-148) together with theorems
settling the specification claims about it.

Numeric values (classifier confidences, scores, means) are modelled as
rationals; floating-point rounding is abstracted away.  The pandas
`DataFrame` is modelled as an ordered association list of named columns,
and NaN as a dedicated cell constructor.
-/

namespace SentimentApp

/-- A cell of the uploaded table: pandas cells here are strings, numbers,
or NaN (missing values). -/
inductive Cell where
  | str (s : String)
  | num (q : ℚ)
  | nan
deriving DecidableEq, Repr

abbrev Column := List Cell

/-- A pandas `DataFrame`, modelled as an ordered association list of named
columns (pandas keeps columns in insertion order and names unique). -/
abbrev DataFrame := List (String × Column)

namespace DataFrame

/-- Column lookup `df[name]`; `none` models the pandas `KeyError` raised
when the column is absent. -/
def getCol : DataFrame → String → Option Column
  | [], _ => none
  | (nm, c) :: rest, name => if nm = name then some c else getCol rest name

/-- Column assignment `df[name] = v`: pandas replaces an existing column in
place and otherwise appends the new column at the end. -/
def setCol : DataFrame → String → Column → DataFrame
  | [], name, v => [(name, v)]
  | (nm, c) :: rest, name, v =>
    if nm = name then (name, v) :: rest else (nm, c) :: setCol rest name v

/-- The list of column names, in order. -/
def names (df : DataFrame) : List String := df.map (fun p => p.1)

/-- `len(df)`: the number of rows, read off the first column. -/
def nrows : DataFrame → Nat
  | [] => 0
  | (_, c) :: _ => c.length

/-- A well-formed (rectangular) frame: every column has `nrows df` cells.
pandas guarantees this for every `DataFrame` it builds. -/
def WF (df : DataFrame) : Prop := ∀ p ∈ df, p.2.length = nrows df

instance (df : DataFrame) : Decidable df.WF :=
  decidable_of_iff (∀ p ∈ df, p.2.length = nrows df) Iff.rfl

end DataFrame

/-- The result of one classifier call, `model(text)[0]`: the predicted
label and the confidence score. -/
abbrev LabelScore := String × ℚ

/-- The external pretrained sentiment classifier, a black-box function
from text to a label/score pair (src/app.py line 37). -/
abbrev Classifier := String → LabelScore

/-- Python `str(x)` applied to a cell (src/app.py line 68 coerces every
tweet cell to a string before calling the model).  The exact rendering of
numbers is abstracted; what matters is that the coercion is total. -/
def cellToString : Cell → String
  | .str s => s
  | .num q => toString q
  | .nan => "nan"

/-- Line 68: `df["tweet"].apply(lambda x: model(str(x))[0])`. -/
def classifyPass (clf : Classifier) (tweets : Column) : List LabelScore :=
  tweets.map (fun c => clf (cellToString c))

/-- Lines 73-77: `np.where(label == "POSITIVE", conf, -conf)` elementwise. -/
def signedScore (r : LabelScore) : ℚ :=
  if r.1 = "POSITIVE" then r.2 else -r.2

/-- Line 80: `value_counts()` — one `(value, multiplicity)` entry per
distinct label.  (pandas orders entries by descending count; the order is
irrelevant to every claim and is not modelled.) -/
def valueCounts (xs : List String) : List (String × Nat) :=
  xs.dedup.map (fun v => (v, xs.count v))

/-- `counts.get(label, 0)` on a value-counts series: the multiplicity
stored for the label, `0` when the label does not occur. -/
def countsGet : List (String × Nat) → String → Nat
  | [], _ => 0
  | (v, k) :: rest, l => if v = l then k else countsGet rest l

/-- Line 129: `series.rolling(w).mean()` — at index `i` the mean of the
window of the `w` entries ending at `i`, and NaN (`none`) while fewer than
`w` entries are available. -/
def rollingMean (w : Nat) (xs : List ℚ) : List (Option ℚ) :=
  (List.range xs.length).map (fun i =>
    if w ≤ i + 1 then some (((xs.take (i + 1)).drop (i + 1 - w)).sum / (w : ℚ))
    else none)

/-- `.mean()` of a boolean series (line 90): the fraction of `true`
entries, NaN (`none`) on an empty series. -/
def boolMean (bs : List Bool) : Option ℚ :=
  if bs.length = 0 then none else some ((bs.countP id : ℚ) / (bs.length : ℚ))

/-- `.mean()` of a numeric series (line 86): NaN (`none`) on an empty
series. -/
def seriesMean (xs : List ℚ) : Option ℚ :=
  if xs.length = 0 then none else some (xs.sum / (xs.length : ℚ))

/-- pandas elementwise `==` between a ground-truth cell and a predicted
label string (line 90): true exactly for an equal string; a number or NaN
compares unequal to any string. -/
def cellEqStr (c : Cell) (s : String) : Bool :=
  match c with
  | .str t => t = s
  | _ => false

/-- Observable failures of the analysis pass.  `keyError col` is the pandas
`KeyError` raised by the column lookup `df[col]` (src/app.py line 68).
`missingColumnError` is modelled from the spec: spec section 4.1 names a
`MissingColumnError`, which the source never defines nor raises; the
constructor exists only so the spec's claim about it can be stated. -/
inductive AppError where
  | keyError (col : String)
  | missingColumnError (col : String)
deriving DecidableEq, Repr

/-- Everything the analyze handler computes and renders: the augmented
frame (also what the download button serializes), the label counts and the
headline metrics, the optional accuracy figure (outer `none` = section
skipped, inner `none` = NaN on an empty series), the overall-opinion word
of the insight line, and the `(Trend_Index, Rolling_Sentiment)` pairs fed
to the line chart. -/
structure Output where
  df : DataFrame
  counts : List (String × Nat)
  posCount : Nat
  negCount : Nat
  total : Nat
  avgScore : Option ℚ
  accuracy : Option (Option ℚ)
  insight : String
  chart : List (Nat × Option ℚ)
deriving DecidableEq, Repr

/-- Line 69: the predicted labels, `results.apply(lambda x: x["label"])`. -/
def labelsOf (clf : Classifier) (tweets : Column) : List String :=
  (classifyPass clf tweets).map (fun r => r.1)

/-- Line 70: the confidences, `results.apply(lambda x: x["score"])`. -/
def confsOf (clf : Classifier) (tweets : Column) : List ℚ :=
  (classifyPass clf tweets).map (fun r => r.2)

/-- Lines 73-77: the signed scores column. -/
def scoresOf (clf : Classifier) (tweets : Column) : List ℚ :=
  (classifyPass clf tweets).map signedScore

/-- A rolling-mean entry rendered as a cell: NaN where the window is not
yet full. -/
def rollCell : Option ℚ → Cell
  | some q => Cell.num q
  | none => Cell.nan

/-- Lines 69-77: the frame after the three assignments
`df["Predicted_Sentiment"] = ...`, `df["Confidence"] = ...`,
`df["Sentiment_Score"] = ...`. -/
def frameWithScores (clf : Classifier) (df : DataFrame) (tweets : Column) :
    DataFrame :=
  ((df.setCol "Predicted_Sentiment" ((labelsOf clf tweets).map Cell.str)).setCol
      "Confidence" ((confsOf clf tweets).map Cell.num)).setCol
    "Sentiment_Score" ((scoresOf clf tweets).map Cell.num)

/-- Lines 89-91: the accuracy figure.  Outer `none` when the `sentiment`
column is absent (the section is skipped); inner `none` is the NaN mean of
an empty boolean series. -/
def accuracyOf (clf : Classifier) (df : DataFrame) (tweets : Column) :
    Option (Option ℚ) :=
  match (frameWithScores clf df tweets).getCol "sentiment" with
  | none => none
  | some gt =>
      some (boolMean (List.zipWith (fun c l => cellEqStr c l) gt
        (labelsOf clf tweets)))

/-- Lines 128-129: the frame after `df["Trend_Index"] = range(len(df))`
and `df["Rolling_Sentiment"] = df["Sentiment_Score"].rolling(20).mean()`.
This is also the frame the download button serializes (line 144). -/
def finalFrame (clf : Classifier) (df : DataFrame) (tweets : Column) :
    DataFrame :=
  ((frameWithScores clf df tweets).setCol "Trend_Index"
      ((List.range (frameWithScores clf df tweets).nrows).map
        (fun i => Cell.num (i : ℚ)))).setCol
    "Rolling_Sentiment" ((rollingMean 20 (scoresOf clf tweets)).map rollCell)

/-- Everything the handler computes on the success path (lines 68-148),
given the tweet column. -/
def okOutput (clf : Classifier) (df : DataFrame) (tweets : Column) : Output :=
  let counts := valueCounts (labelsOf clf tweets)
  { df := finalFrame clf df tweets
    counts := counts
    posCount := countsGet counts "POSITIVE"
    negCount := countsGet counts "NEGATIVE"
    total := (frameWithScores clf df tweets).nrows
    avgScore := seriesMean (scoresOf clf tweets)
    accuracy := accuracyOf clf df tweets
    insight :=
      if countsGet counts "POSITIVE" > countsGet counts "NEGATIVE"
      then "Positive" else "Negative"
    chart := (List.range (frameWithScores clf df tweets).nrows).zip
      (rollingMean 20 (scoresOf clf tweets)) }

/-- The analyze-button handler, src/app.py lines 65-148, as a function of
the classifier and the uploaded frame.  `df["tweet"]` on a frame without
that column raises `KeyError` before any classifier call; otherwise the
handler runs to completion. -/
def analyze (clf : Classifier) (df : DataFrame) : Except AppError Output :=
  match df.getCol "tweet" with
  | none => .error (.keyError "tweet")
  | some tweets => .ok (okOutput clf df tweets)

namespace DataFrame

theorem getCol_setCol_self (df : DataFrame) (name : String) (v : Column) :
    (df.setCol name v).getCol name = some v := by
  induction df with
  | nil => simp [setCol, getCol]
  | cons p rest ih =>
    obtain ⟨nm, c⟩ := p
    by_cases h : nm = name
    · simp [setCol, h, getCol]
    · simp [setCol, h, getCol, ih]

theorem getCol_setCol_ne (df : DataFrame) (nmSet nmGet : String) (v : Column)
    (h : nmSet ≠ nmGet) :
    (df.setCol nmSet v).getCol nmGet = df.getCol nmGet := by
  induction df with
  | nil => simp [setCol, getCol, h]
  | cons p rest ih =>
    obtain ⟨nm, c⟩ := p
    by_cases h2 : nm = nmSet
    · subst h2
      simp [setCol, getCol, h]
    · by_cases h3 : nm = nmGet <;>
        simp [setCol, h2, getCol, h3, ih, Ne.symm h]

theorem nrows_setCol (df : DataFrame) (name : String) (v : Column)
    (hne : df ≠ []) (hlen : v.length = df.nrows) :
    (df.setCol name v).nrows = df.nrows := by
  cases df with
  | nil => exact absurd rfl hne
  | cons p rest =>
    obtain ⟨nm, c⟩ := p
    by_cases h : nm = name
    · simp [setCol, h, nrows] at hlen ⊢
      omega
    · simp [setCol, h, nrows]

theorem setCol_ne_nil (df : DataFrame) (name : String) (v : Column) :
    df.setCol name v ≠ [] := by
  cases df with
  | nil => simp [setCol]
  | cons p rest =>
    obtain ⟨nm, c⟩ := p
    by_cases h : nm = name <;> simp [setCol, h]

theorem mem_of_getCol {df : DataFrame} {name : String} {c : Column}
    (h : df.getCol name = some c) : (name, c) ∈ df := by
  induction df with
  | nil => simp [getCol] at h
  | cons p rest ih =>
    obtain ⟨nm, c2⟩ := p
    by_cases h2 : nm = name
    · subst h2
      simp [getCol] at h
      simp [h]
    · simp [getCol, h2] at h
      exact List.mem_cons_of_mem _ (ih h)

theorem length_of_getCol {df : DataFrame} {name : String} {c : Column}
    (hwf : df.WF) (h : df.getCol name = some c) : c.length = df.nrows :=
  hwf (name, c) (mem_of_getCol h)

theorem ne_nil_of_getCol {df : DataFrame} {name : String} {c : Column}
    (h : df.getCol name = some c) : df ≠ [] := by
  intro he
  subst he
  simp [getCol] at h

end DataFrame

theorem length_labelsOf (clf : Classifier) (tweets : Column) :
    (labelsOf clf tweets).length = tweets.length := by
  simp [labelsOf, classifyPass]

theorem length_confsOf (clf : Classifier) (tweets : Column) :
    (confsOf clf tweets).length = tweets.length := by
  simp [confsOf, classifyPass]

theorem length_scoresOf (clf : Classifier) (tweets : Column) :
    (scoresOf clf tweets).length = tweets.length := by
  simp [scoresOf, classifyPass]

theorem length_rollingMean (w : Nat) (xs : List ℚ) :
    (rollingMean w xs).length = xs.length := by
  simp [rollingMean]

theorem analyze_eq_ok (clf : Classifier) (df : DataFrame) (tweets : Column)
    (h : df.getCol "tweet" = some tweets) :
    analyze clf df = .ok (okOutput clf df tweets) := by
  simp [analyze, h]

theorem countsGet_valueCounts (xs : List String) (l : String) :
    countsGet (valueCounts xs) l = xs.count l := by
  have aux : ∀ ys : List String,
      countsGet (ys.map (fun v => (v, xs.count v))) l =
        if l ∈ ys then xs.count l else 0 := by
    intro ys
    induction ys with
    | nil => simp [countsGet]
    | cons y ys ih =>
      by_cases h : y = l
      · subst h
        simp [countsGet]
      · simp [countsGet, h, ih, Ne.symm h]
  rw [valueCounts, aux]
  by_cases hm : l ∈ xs.dedup
  · simp [hm]
  · have hnx : l ∉ xs := fun hx => hm (List.mem_dedup.mpr hx)
    simp [hm, List.count_eq_zero.mpr hnx]

theorem sum_counts_valueCounts (xs : List String) :
    ((valueCounts xs).map (fun p => p.2)).sum = xs.length := by
  rw [valueCounts, List.map_map]
  simpa using List.sum_map_count_dedup_eq_length xs

theorem sum_eq_sum_getD (l : List ℚ) :
    l.sum = ∑ j ∈ Finset.range l.length, l.getD j 0 := by
  induction l with
  | nil => simp
  | cons x xs ih =>
    rw [List.sum_cons, ih, List.length_cons, Finset.sum_range_succ']
    simp [add_comm]

theorem sum_slice (xs : List ℚ) (a b : Nat) (hb : b ≤ xs.length) :
    ((xs.take b).drop a).sum = ∑ j ∈ Finset.Ico a b, xs.getD j 0 := by
  rw [sum_eq_sum_getD]
  have hlen : ((xs.take b).drop a).length = b - a := by
    rw [List.length_drop, List.length_take]
    omega
  rw [hlen, Finset.sum_Ico_eq_sum_range]
  apply Finset.sum_congr rfl
  intro j hj
  have hj2 : a + j < b := by
    have := Finset.mem_range.mp hj
    omega
  rw [List.getD_eq_getElem?_getD, List.getD_eq_getElem?_getD,
    List.getElem?_drop, List.getElem?_take]
  simp [hj2]

theorem rollingMean_at (xs : List ℚ) (i : Nat) (hi : i < xs.length) :
    (rollingMean 20 xs)[i]? =
      some (if 20 ≤ i + 1
        then some (((xs.take (i + 1)).drop (i + 1 - 20)).sum / (20 : ℚ))
        else none) := by
  rw [rollingMean, List.getElem?_map, List.getElem?_range hi]
  rfl

theorem rollingMean_spec (xs : List ℚ) (i : Nat) (hi : i < xs.length) :
    (19 ≤ i → (rollingMean 20 xs)[i]? =
      some (some ((∑ j ∈ Finset.Icc (i - 19) i, xs.getD j 0) / (20 : ℚ)))) ∧
    (i < 19 → (rollingMean 20 xs)[i]? = some none) := by
  constructor
  · intro h19
    rw [rollingMean_at xs i hi, if_pos (by omega)]
    have he : i + 1 - 20 = i - 19 := by omega
    rw [he, sum_slice xs (i - 19) (i + 1) (by omega),
      show Finset.Ico (i - 19) (i + 1) = Finset.Icc (i - 19) i from
        Nat.Ico_succ_right _ _]
  · intro h19
    rw [rollingMean_at xs i hi, if_neg (by omega)]

theorem getCol_frameWithScores_score (clf : Classifier) (df : DataFrame)
    (tweets : Column) :
    (frameWithScores clf df tweets).getCol "Sentiment_Score" =
      some ((scoresOf clf tweets).map Cell.num) := by
  rw [frameWithScores, DataFrame.getCol_setCol_self]

theorem getCol_frameWithScores_conf (clf : Classifier) (df : DataFrame)
    (tweets : Column) :
    (frameWithScores clf df tweets).getCol "Confidence" =
      some ((confsOf clf tweets).map Cell.num) := by
  rw [frameWithScores, DataFrame.getCol_setCol_ne _ _ _ _ (by decide),
    DataFrame.getCol_setCol_self]

theorem getCol_frameWithScores_pred (clf : Classifier) (df : DataFrame)
    (tweets : Column) :
    (frameWithScores clf df tweets).getCol "Predicted_Sentiment" =
      some ((labelsOf clf tweets).map Cell.str) := by
  rw [frameWithScores, DataFrame.getCol_setCol_ne _ _ _ _ (by decide),
    DataFrame.getCol_setCol_ne _ _ _ _ (by decide),
    DataFrame.getCol_setCol_self]

theorem getCol_frameWithScores_other (clf : Classifier) (df : DataFrame)
    (tweets : Column) (nm : String) (h1 : nm ≠ "Predicted_Sentiment")
    (h2 : nm ≠ "Confidence") (h3 : nm ≠ "Sentiment_Score") :
    (frameWithScores clf df tweets).getCol nm = df.getCol nm := by
  rw [frameWithScores, DataFrame.getCol_setCol_ne _ _ _ _ (Ne.symm h3),
    DataFrame.getCol_setCol_ne _ _ _ _ (Ne.symm h2),
    DataFrame.getCol_setCol_ne _ _ _ _ (Ne.symm h1)]

theorem getCol_finalFrame_roll (clf : Classifier) (df : DataFrame)
    (tweets : Column) :
    (finalFrame clf df tweets).getCol "Rolling_Sentiment" =
      some ((rollingMean 20 (scoresOf clf tweets)).map rollCell) := by
  rw [finalFrame, DataFrame.getCol_setCol_self]

theorem getCol_finalFrame_trend (clf : Classifier) (df : DataFrame)
    (tweets : Column) :
    (finalFrame clf df tweets).getCol "Trend_Index" =
      some ((List.range (frameWithScores clf df tweets).nrows).map
        (fun i => Cell.num (i : ℚ))) := by
  rw [finalFrame, DataFrame.getCol_setCol_ne _ _ _ _ (by decide),
    DataFrame.getCol_setCol_self]

theorem getCol_finalFrame_other (clf : Classifier) (df : DataFrame)
    (tweets : Column) (nm : String) (h1 : nm ≠ "Trend_Index")
    (h2 : nm ≠ "Rolling_Sentiment") :
    (finalFrame clf df tweets).getCol nm =
      (frameWithScores clf df tweets).getCol nm := by
  rw [finalFrame, DataFrame.getCol_setCol_ne _ _ _ _ (Ne.symm h2),
    DataFrame.getCol_setCol_ne _ _ _ _ (Ne.symm h1)]

theorem nrows_frameWithScores (clf : Classifier) (df : DataFrame)
    (tweets : Column) (h : df.getCol "tweet" = some tweets) (hwf : df.WF) :
    (frameWithScores clf df tweets).nrows = df.nrows := by
  have hne := DataFrame.ne_nil_of_getCol h
  have hlen : tweets.length = df.nrows := DataFrame.length_of_getCol hwf h
  have h1 : (df.setCol "Predicted_Sentiment"
      ((labelsOf clf tweets).map Cell.str)).nrows = df.nrows :=
    DataFrame.nrows_setCol _ _ _ hne (by simp [length_labelsOf, hlen])
  have h2 : ((df.setCol "Predicted_Sentiment"
      ((labelsOf clf tweets).map Cell.str)).setCol "Confidence"
      ((confsOf clf tweets).map Cell.num)).nrows = df.nrows := by
    rw [DataFrame.nrows_setCol _ _ _ (DataFrame.setCol_ne_nil _ _ _)
      (by simp [length_confsOf, hlen, h1]), h1]
  rw [frameWithScores, DataFrame.nrows_setCol _ _ _
    (DataFrame.setCol_ne_nil _ _ _) (by simp [length_scoresOf, hlen, h2]), h2]

namespace DataFrame

theorem setCol_of_getCol_none {df : DataFrame} {name : String}
    (h : df.getCol name = none) (v : Column) :
    df.setCol name v = df ++ [(name, v)] := by
  induction df with
  | nil => simp [setCol]
  | cons p rest ih =>
    obtain ⟨nm, c⟩ := p
    by_cases h2 : nm = name
    · simp [getCol, h2] at h
    · simp [getCol, h2] at h
      simp [setCol, h2, ih h]

theorem getCol_append_left {df : DataFrame} (e : DataFrame) {nm : String}
    {c : Column} (h : df.getCol nm = some c) :
    (df ++ e).getCol nm = some c := by
  induction df with
  | nil => simp [getCol] at h
  | cons p rest ih =>
    obtain ⟨nm2, c2⟩ := p
    by_cases h2 : nm2 = nm
    · simp [getCol, h2] at h ⊢
      exact h
    · simp [getCol, h2] at h ⊢
      exact ih h

theorem getCol_append_right {df : DataFrame} (e : DataFrame) {nm : String}
    (h : df.getCol nm = none) :
    (df ++ e).getCol nm = e.getCol nm := by
  induction df with
  | nil => simp
  | cons p rest ih =>
    obtain ⟨nm2, c2⟩ := p
    by_cases h2 : nm2 = nm
    · simp [getCol, h2] at h
    · simp [getCol, h2] at h ⊢
      exact ih h

theorem getCol_append_singleton_ne {df : DataFrame} {nm1 nm : String}
    {v : Column} (hne : nm1 ≠ nm) (h : df.getCol nm = none) :
    (df ++ [(nm1, v)]).getCol nm = none := by
  rw [getCol_append_right _ h]
  simp [getCol, hne]

theorem names_append (df e : DataFrame) :
    (df ++ e).names = df.names ++ e.names :=
  List.map_append _ _ _

end DataFrame

theorem countP_zipWith_eq_sum (f : Cell → String → Bool) (a : List Cell)
    (b : List String) :
    (List.zipWith f a b).countP id =
      ∑ i ∈ Finset.range (min a.length b.length),
        (if f (a.getD i Cell.nan) (b.getD i "") then 1 else 0) := by
  induction a generalizing b with
  | nil => simp
  | cons x xs ih =>
    cases b with
    | nil => simp
    | cons y ys =>
      rw [List.zipWith_cons_cons, List.countP_cons]
      have hmin : min (x :: xs).length (y :: ys).length =
          min xs.length ys.length + 1 := by
        simp [Nat.succ_min_succ]
      rw [hmin, Finset.sum_range_succ']
      simp [ih]

/-! Concrete fixtures used by witnesses and counterexamples. -/

/-- A classifier that labels everything POSITIVE with confidence 1/2. -/
def clf0 : Classifier := fun _ => ("POSITIVE", 1 / 2)

/-- A classifier that labels everything NEGATIVE with confidence 1. -/
def clf1 : Classifier := fun _ => ("NEGATIVE", 1)

/-- A one-row frame with only the required text column. -/
def df0 : DataFrame := [("tweet", [Cell.str "hi"])]

/-- A one-row frame without the required `tweet` column. -/
def dfNoTweet : DataFrame := [("id", [Cell.num 1])]

/-- A frame whose second input column clashes with the derived name
`Confidence`. -/
def dfClash : DataFrame :=
  [("tweet", [Cell.str "a"]), ("Confidence", [Cell.num 7])]

/-- A two-row frame whose tweet cells are not strings (NaN and a number). -/
def dfMix : DataFrame := [("tweet", [Cell.nan, Cell.num 3])]

/-- A one-row frame carrying the optional ground-truth column. -/
def dfGT : DataFrame :=
  [("tweet", [Cell.str "hi"]), ("sentiment", [Cell.str "POSITIVE"])]

/-! Claim C1. -/

/-- C1, counterexample to the claim as stated: on a frame without the
`tweet` column the handler fails with the pandas `KeyError` raised by the
column lookup, and with no `MissingColumnError` of any column: the source
never defines or raises one. -/
theorem C1_counterexample :
    analyze clf0 dfNoTweet = .error (.keyError "tweet") ∧
    ¬ ∃ c, analyze clf0 dfNoTweet = .error (.missingColumnError c) := by
  have h1 : analyze clf0 dfNoTweet = .error (.keyError "tweet") := rfl
  refine ⟨h1, ?_⟩
  rintro ⟨c, hc⟩
  rw [h1] at hc
  exact AppError.noConfusion (Except.error.inj hc)

/-- C1, amended: for every uploaded frame that lacks the required text
column `tweet`, processing halts before any classifier call — the result
is the same for every classifier — but it fails with an uncaught pandas
`KeyError`, not with a `MissingColumnError`, and the source shows no
dedicated user-facing message for it. -/
theorem C1_missing_column (clf clf2 : Classifier) (df : DataFrame)
    (h : df.getCol "tweet" = none) :
    analyze clf df = .error (.keyError "tweet") ∧
      analyze clf df = analyze clf2 df := by
  constructor
  · simp [analyze, h]
  · simp [analyze, h]

/-- C1, witness: the amended theorem applied to a concrete frame without
a `tweet` column and two concrete classifiers. -/
theorem C1_missing_column_witness :
    DataFrame.getCol dfNoTweet "tweet" = none ∧
    (analyze clf0 dfNoTweet = .error (.keyError "tweet") ∧
      analyze clf0 dfNoTweet = analyze clf1 dfNoTweet) :=
  ⟨rfl, C1_missing_column clf0 clf1 dfNoTweet rfl⟩

/-! Claim C3. -/

/-- C3: for every analyzed table, the derived `Sentiment_Score` column is
the signed-score list, and at every record the signed score equals
`+Confidence` when the predicted label is POSITIVE and `-Confidence`
otherwise. -/
theorem C3_signed_score (clf : Classifier) (df : DataFrame) (tweets : Column)
    (h : df.getCol "tweet" = some tweets) :
    ∃ out, analyze clf df = .ok out ∧
      out.df.getCol "Sentiment_Score" =
        some ((scoresOf clf tweets).map Cell.num) ∧
      ∀ i, i < tweets.length →
        (scoresOf clf tweets).getD i 0 =
          (if (labelsOf clf tweets).getD i "" = "POSITIVE"
            then (confsOf clf tweets).getD i 0
            else -((confsOf clf tweets).getD i 0)) := by
  refine ⟨okOutput clf df tweets, analyze_eq_ok clf df tweets h, ?_, ?_⟩
  · show (finalFrame clf df tweets).getCol "Sentiment_Score" = _
    rw [getCol_finalFrame_other _ _ _ _ (by decide) (by decide),
      getCol_frameWithScores_score]
  · intro i hi
    have hlen : i < (classifyPass clf tweets).length := by
      simpa [classifyPass] using hi
    simp only [scoresOf, labelsOf, confsOf, List.getD_eq_getElem?_getD,
      List.getElem?_map, List.getElem?_eq_getElem hlen, Option.map_some',
      Option.getD_some]
    rfl

/-- C3, witness: the theorem applied to the concrete one-row frame `df0`
and the constant POSITIVE classifier. -/
theorem C3_signed_score_witness :
    DataFrame.getCol df0 "tweet" = some [Cell.str "hi"] ∧
    (∃ out, analyze clf0 df0 = .ok out ∧
      out.df.getCol "Sentiment_Score" =
        some ((scoresOf clf0 [Cell.str "hi"]).map Cell.num) ∧
      ∀ i, i < ([Cell.str "hi"] : Column).length →
        (scoresOf clf0 [Cell.str "hi"]).getD i 0 =
          (if (labelsOf clf0 [Cell.str "hi"]).getD i "" = "POSITIVE"
            then (confsOf clf0 [Cell.str "hi"]).getD i 0
            else -((confsOf clf0 [Cell.str "hi"]).getD i 0))) :=
  ⟨rfl, C3_signed_score clf0 df0 [Cell.str "hi"] rfl⟩

/-! Claim C4. -/

/-- C4: the one-line insight resolves to "Positive" exactly when the
count of POSITIVE predictions strictly exceeds the count of NEGATIVE
predictions, and to "Negative" otherwise; in particular a tie resolves to
"Negative". -/
theorem C4_insight (clf : Classifier) (df : DataFrame) (tweets : Column)
    (h : df.getCol "tweet" = some tweets) :
    ∃ out, analyze clf df = .ok out ∧
      (out.insight = "Positive" ↔
        (labelsOf clf tweets).count "NEGATIVE" <
          (labelsOf clf tweets).count "POSITIVE") ∧
      (¬ (labelsOf clf tweets).count "NEGATIVE" <
          (labelsOf clf tweets).count "POSITIVE" →
        out.insight = "Negative") ∧
      ((labelsOf clf tweets).count "POSITIVE" =
          (labelsOf clf tweets).count "NEGATIVE" →
        out.insight = "Negative") := by
  refine ⟨okOutput clf df tweets, analyze_eq_ok clf df tweets h, ?_⟩
  have hins : (okOutput clf df tweets).insight =
      if (labelsOf clf tweets).count "NEGATIVE" <
          (labelsOf clf tweets).count "POSITIVE"
      then "Positive" else "Negative" := by
    simp [okOutput, countsGet_valueCounts]
  rw [hins]
  by_cases hlt : (labelsOf clf tweets).count "NEGATIVE" <
      (labelsOf clf tweets).count "POSITIVE"
  · refine ⟨by simp [hlt], fun hc => absurd hlt hc, fun he => ?_⟩
    rw [he] at hlt
    exact absurd hlt (lt_irrefl _)
  · refine ⟨?_, fun _ => by simp [hlt], fun _ => by simp [hlt]⟩
    simp only [if_neg hlt]
    constructor
    · intro he
      exact absurd he (by decide)
    · intro hc
      exact absurd hc hlt

/-- C4, witness: the theorem applied to the concrete one-row frame `df0`
and the constant POSITIVE classifier. -/
theorem C4_insight_witness :
    DataFrame.getCol df0 "tweet" = some [Cell.str "hi"] ∧
    (∃ out, analyze clf0 df0 = .ok out ∧
      (out.insight = "Positive" ↔
        (labelsOf clf0 [Cell.str "hi"]).count "NEGATIVE" <
          (labelsOf clf0 [Cell.str "hi"]).count "POSITIVE") ∧
      (¬ (labelsOf clf0 [Cell.str "hi"]).count "NEGATIVE" <
          (labelsOf clf0 [Cell.str "hi"]).count "POSITIVE" →
        out.insight = "Negative") ∧
      ((labelsOf clf0 [Cell.str "hi"]).count "POSITIVE" =
          (labelsOf clf0 [Cell.str "hi"]).count "NEGATIVE" →
        out.insight = "Negative")) :=
  ⟨rfl, C4_insight clf0 df0 [Cell.str "hi"] rfl⟩

/-! Claim C8. -/

/-- C8: for every analyzed well-formed table, the label counts sum to the
total number of records. -/
theorem C8_counts_sum (clf : Classifier) (df : DataFrame) (tweets : Column)
    (h : df.getCol "tweet" = some tweets) (hwf : df.WF) :
    ∃ out, analyze clf df = .ok out ∧
      (out.counts.map (fun p => p.2)).sum = out.total ∧
      out.total = df.nrows := by
  refine ⟨okOutput clf df tweets, analyze_eq_ok clf df tweets h, ?_, ?_⟩
  · show ((valueCounts (labelsOf clf tweets)).map (fun p => p.2)).sum =
      (frameWithScores clf df tweets).nrows
    rw [sum_counts_valueCounts, length_labelsOf,
      nrows_frameWithScores clf df tweets h hwf,
      DataFrame.length_of_getCol hwf h]
  · show (frameWithScores clf df tweets).nrows = df.nrows
    exact nrows_frameWithScores clf df tweets h hwf

/-- C8, witness: the theorem applied to the concrete one-row frame `df0`
and the constant POSITIVE classifier. -/
theorem C8_counts_sum_witness :
    DataFrame.getCol df0 "tweet" = some [Cell.str "hi"] ∧ DataFrame.WF df0 ∧
    (∃ out, analyze clf0 df0 = .ok out ∧
      (out.counts.map (fun p => p.2)).sum = out.total ∧
      out.total = df0.nrows) :=
  ⟨rfl, by decide, C8_counts_sum clf0 df0 [Cell.str "hi"] rfl (by decide)⟩

/-! Claim C2. -/

/-- C2: for every analyzed table, the derived `Rolling_Sentiment` column
has one entry per record; at every zero-indexed row `i ≥ 19` it holds the
arithmetic mean of the signed scores of rows `i-19` through `i` (a
trailing window of 20 rows in original row order), and at every row
`i < 19` it is absent (NaN). -/
theorem C2_rolling (clf : Classifier) (df : DataFrame) (tweets : Column)
    (h : df.getCol "tweet" = some tweets) :
    ∃ out, analyze clf df = .ok out ∧
    ∃ rollCol, out.df.getCol "Rolling_Sentiment" = some rollCol ∧
      rollCol.length = tweets.length ∧
      ∀ i, i < tweets.length →
        (19 ≤ i → rollCol[i]? = some (Cell.num
          ((∑ j ∈ Finset.Icc (i - 19) i, (scoresOf clf tweets).getD j 0) /
            (20 : ℚ)))) ∧
        (i < 19 → rollCol[i]? = some Cell.nan) := by
  refine ⟨okOutput clf df tweets, analyze_eq_ok clf df tweets h,
    (rollingMean 20 (scoresOf clf tweets)).map rollCell, ?_, ?_, ?_⟩
  · show (finalFrame clf df tweets).getCol "Rolling_Sentiment" = _
    exact getCol_finalFrame_roll clf df tweets
  · simp [length_rollingMean, length_scoresOf]
  · intro i hi
    have hi2 : i < (scoresOf clf tweets).length := by
      rw [length_scoresOf]
      exact hi
    have hspec := rollingMean_spec (scoresOf clf tweets) i hi2
    constructor
    · intro h19
      rw [List.getElem?_map, hspec.1 h19]
      rfl
    · intro h19
      rw [List.getElem?_map, hspec.2 h19]
      rfl

/-- C2, witness: the theorem applied to the concrete one-row frame `df0`
and the constant POSITIVE classifier. -/
theorem C2_rolling_witness :
    DataFrame.getCol df0 "tweet" = some [Cell.str "hi"] ∧
    (∃ out, analyze clf0 df0 = .ok out ∧
    ∃ rollCol, out.df.getCol "Rolling_Sentiment" = some rollCol ∧
      rollCol.length = ([Cell.str "hi"] : Column).length ∧
      ∀ i, i < ([Cell.str "hi"] : Column).length →
        (19 ≤ i → rollCol[i]? = some (Cell.num
          ((∑ j ∈ Finset.Icc (i - 19) i,
            (scoresOf clf0 [Cell.str "hi"]).getD j 0) / (20 : ℚ)))) ∧
        (i < 19 → rollCol[i]? = some Cell.nan)) :=
  ⟨rfl, C2_rolling clf0 df0 [Cell.str "hi"] rfl⟩

/-! Claim C10. -/

/-- C10: for every analyzed well-formed table of `n` records the derived
`Trend_Index` column holds exactly the values `0, 1, ..., n-1` in row
order, and the trend chart is the rolling-mean series indexed by exactly
those values. -/
theorem C10_trend (clf : Classifier) (df : DataFrame) (tweets : Column)
    (h : df.getCol "tweet" = some tweets) (hwf : df.WF) :
    ∃ out, analyze clf df = .ok out ∧
      out.df.getCol "Trend_Index" =
        some ((List.range df.nrows).map (fun i => Cell.num (i : ℚ))) ∧
      out.chart = (List.range df.nrows).zip
        (rollingMean 20 (scoresOf clf tweets)) ∧
      out.chart.map Prod.fst = List.range df.nrows := by
  have hn := nrows_frameWithScores clf df tweets h hwf
  refine ⟨okOutput clf df tweets, analyze_eq_ok clf df tweets h, ?_, ?_, ?_⟩
  · show (finalFrame clf df tweets).getCol "Trend_Index" = _
    rw [getCol_finalFrame_trend, hn]
  · show (List.range (frameWithScores clf df tweets).nrows).zip
        (rollingMean 20 (scoresOf clf tweets)) = _
    rw [hn]
  · show ((List.range (frameWithScores clf df tweets).nrows).zip
        (rollingMean 20 (scoresOf clf tweets))).map Prod.fst = _
    rw [hn]
    apply List.map_fst_zip
    rw [List.length_range, length_rollingMean, length_scoresOf,
      DataFrame.length_of_getCol hwf h]

/-- C10, witness: the theorem applied to the concrete one-row frame `df0`
and the constant POSITIVE classifier. -/
theorem C10_trend_witness :
    DataFrame.getCol df0 "tweet" = some [Cell.str "hi"] ∧ DataFrame.WF df0 ∧
    (∃ out, analyze clf0 df0 = .ok out ∧
      out.df.getCol "Trend_Index" =
        some ((List.range df0.nrows).map (fun i => Cell.num (i : ℚ))) ∧
      out.chart = (List.range df0.nrows).zip
        (rollingMean 20 (scoresOf clf0 [Cell.str "hi"])) ∧
      out.chart.map Prod.fst = List.range df0.nrows) :=
  ⟨rfl, by decide, C10_trend clf0 df0 [Cell.str "hi"] rfl (by decide)⟩

/-! Claim C5. -/

/-- C5: the accuracy figure is produced exactly when the ground-truth
column `sentiment` is present; when present it is the fraction of records
whose ground-truth cell is string-equal to the predicted label (the NaN
mean on an empty table); when absent, the handler still succeeds and the
accuracy is skipped. -/
theorem C5_accuracy (clf : Classifier) (df : DataFrame) (tweets : Column)
    (h : df.getCol "tweet" = some tweets) (hwf : df.WF) :
    ∃ out, analyze clf df = .ok out ∧
      (out.accuracy.isSome ↔ (df.getCol "sentiment").isSome) ∧
      (df.getCol "sentiment" = none → out.accuracy = none) ∧
      (∀ gt, df.getCol "sentiment" = some gt →
        (0 < df.nrows → out.accuracy = some (some (
          (∑ i ∈ Finset.range df.nrows,
            if cellEqStr (gt.getD i Cell.nan)
              ((labelsOf clf tweets).getD i "") then (1 : ℚ) else 0) /
          (df.nrows : ℚ)))) ∧
        (df.nrows = 0 → out.accuracy = some none)) := by
  have hsent : (frameWithScores clf df tweets).getCol "sentiment" =
      df.getCol "sentiment" :=
    getCol_frameWithScores_other _ _ _ _ (by decide) (by decide) (by decide)
  have hone : ∀ gt, df.getCol "sentiment" = some gt →
      accuracyOf clf df tweets = some (boolMean
        (List.zipWith (fun c l => cellEqStr c l) gt (labelsOf clf tweets))) := by
    intro gt hgt
    rw [accuracyOf, hsent, hgt]
  have hnone : df.getCol "sentiment" = none →
      accuracyOf clf df tweets = none := by
    intro hgt
    rw [accuracyOf, hsent, hgt]
  refine ⟨okOutput clf df tweets, analyze_eq_ok clf df tweets h, ?_, ?_, ?_⟩
  · show (accuracyOf clf df tweets).isSome ↔ _
    cases hs : df.getCol "sentiment" with
    | none => simp [hnone hs]
    | some gt => simp [hone gt hs]
  · intro hs
    show accuracyOf clf df tweets = none
    exact hnone hs
  · intro gt hgt
    have hgl : gt.length = df.nrows := DataFrame.length_of_getCol hwf hgt
    have hll : (labelsOf clf tweets).length = df.nrows := by
      rw [length_labelsOf, DataFrame.length_of_getCol hwf h]
    have hbs : (List.zipWith (fun c l => cellEqStr c l) gt
        (labelsOf clf tweets)).length = df.nrows := by
      rw [List.length_zipWith, hgl, hll, min_self]
    constructor
    · intro hpos
      show accuracyOf clf df tweets = _
      rw [hone gt hgt, boolMean, hbs, if_neg (by omega)]
      congr 2
      rw [countP_zipWith_eq_sum, hgl, hll, min_self]
      push_cast
      rfl
    · intro hzero
      show accuracyOf clf df tweets = _
      rw [hone gt hgt, boolMean, hbs, if_pos hzero]

/-- C5, witness: the theorem applied to the concrete one-row frame `dfGT`
carrying a ground-truth column, and the constant POSITIVE classifier. -/
theorem C5_accuracy_witness :
    DataFrame.getCol dfGT "tweet" = some [Cell.str "hi"] ∧ DataFrame.WF dfGT ∧
    (∃ out, analyze clf0 dfGT = .ok out ∧
      (out.accuracy.isSome ↔ (dfGT.getCol "sentiment").isSome) ∧
      (dfGT.getCol "sentiment" = none → out.accuracy = none) ∧
      (∀ gt, dfGT.getCol "sentiment" = some gt →
        (0 < dfGT.nrows → out.accuracy = some (some (
          (∑ i ∈ Finset.range dfGT.nrows,
            if cellEqStr (gt.getD i Cell.nan)
              ((labelsOf clf0 [Cell.str "hi"]).getD i "") then (1 : ℚ) else 0) /
          (dfGT.nrows : ℚ)))) ∧
        (dfGT.nrows = 0 → out.accuracy = some none))) :=
  ⟨rfl, by decide, C5_accuracy clf0 dfGT [Cell.str "hi"] rfl (by decide)⟩

/-! Claim C6. -/

/-- C6: assuming the classifier contract (label in {POSITIVE, NEGATIVE},
confidence in [0,1]), every predicted label in the augmented table is
POSITIVE or NEGATIVE (no other value appears in the column), every
confidence is in [0,1], and every signed score is in [-1,1]. -/
theorem C6_ranges (clf : Classifier) (df : DataFrame) (tweets : Column)
    (h : df.getCol "tweet" = some tweets)
    (hclf : ∀ t, ((clf t).1 = "POSITIVE" ∨ (clf t).1 = "NEGATIVE") ∧
      0 ≤ (clf t).2 ∧ (clf t).2 ≤ 1) :
    ∃ out, analyze clf df = .ok out ∧
      out.df.getCol "Predicted_Sentiment" =
        some ((labelsOf clf tweets).map Cell.str) ∧
      (∀ l ∈ labelsOf clf tweets, l = "POSITIVE" ∨ l = "NEGATIVE") ∧
      (∀ q ∈ confsOf clf tweets, 0 ≤ q ∧ q ≤ 1) ∧
      (∀ s ∈ scoresOf clf tweets, -1 ≤ s ∧ s ≤ 1) := by
  refine ⟨okOutput clf df tweets, analyze_eq_ok clf df tweets h, ?_, ?_, ?_, ?_⟩
  · show (finalFrame clf df tweets).getCol "Predicted_Sentiment" = _
    rw [getCol_finalFrame_other _ _ _ _ (by decide) (by decide),
      getCol_frameWithScores_pred]
  · intro l hl
    simp only [labelsOf, classifyPass, List.map_map, List.mem_map,
      Function.comp] at hl
    obtain ⟨c, _, rfl⟩ := hl
    exact (hclf (cellToString c)).1
  · intro q hq
    simp only [confsOf, classifyPass, List.map_map, List.mem_map,
      Function.comp] at hq
    obtain ⟨c, _, rfl⟩ := hq
    exact (hclf (cellToString c)).2
  · intro s hs
    simp only [scoresOf, classifyPass, List.map_map, List.mem_map,
      Function.comp] at hs
    obtain ⟨c, _, rfl⟩ := hs
    have h2 := (hclf (cellToString c)).2
    rw [signedScore]
    by_cases hp : (clf (cellToString c)).1 = "POSITIVE"
    · rw [if_pos hp]
      constructor <;> linarith [h2.1, h2.2]
    · rw [if_neg hp]
      constructor <;> linarith [h2.1, h2.2]

/-- C6, witness: the theorem applied to the concrete one-row frame `df0`
and the constant POSITIVE classifier, which satisfies the contract. -/
theorem C6_ranges_witness :
    DataFrame.getCol df0 "tweet" = some [Cell.str "hi"] ∧
    (∀ t, ((clf0 t).1 = "POSITIVE" ∨ (clf0 t).1 = "NEGATIVE") ∧
      0 ≤ (clf0 t).2 ∧ (clf0 t).2 ≤ 1) ∧
    (∃ out, analyze clf0 df0 = .ok out ∧
      out.df.getCol "Predicted_Sentiment" =
        some ((labelsOf clf0 [Cell.str "hi"]).map Cell.str) ∧
      (∀ l ∈ labelsOf clf0 [Cell.str "hi"], l = "POSITIVE" ∨ l = "NEGATIVE") ∧
      (∀ q ∈ confsOf clf0 [Cell.str "hi"], 0 ≤ q ∧ q ≤ 1) ∧
      (∀ s ∈ scoresOf clf0 [Cell.str "hi"], -1 ≤ s ∧ s ≤ 1)) := by
  have hc : ∀ t, ((clf0 t).1 = "POSITIVE" ∨ (clf0 t).1 = "NEGATIVE") ∧
      0 ≤ (clf0 t).2 ∧ (clf0 t).2 ≤ 1 := by
    intro t
    refine ⟨Or.inl rfl, by norm_num [clf0], by norm_num [clf0]⟩
  exact ⟨rfl, hc, C6_ranges clf0 df0 [Cell.str "hi"] rfl hc⟩

/-! Claim C9. -/

/-- C9: the classification pass never fails on a non-string (or missing)
text cell: each cell is coerced with `str(x)` before the classifier is
invoked, so every row receives a prediction, namely the label the
classifier returns for the coerced string. -/
theorem C9_coercion (clf : Classifier) (df : DataFrame) (tweets : Column)
    (h : df.getCol "tweet" = some tweets) :
    ∃ out, analyze clf df = .ok out ∧
    ∃ predCol, out.df.getCol "Predicted_Sentiment" = some predCol ∧
      predCol.length = tweets.length ∧
      ∀ i, i < tweets.length →
        predCol[i]? = some (Cell.str
          ((clf (cellToString (tweets.getD i Cell.nan))).1)) := by
  refine ⟨okOutput clf df tweets, analyze_eq_ok clf df tweets h,
    (labelsOf clf tweets).map Cell.str, ?_, ?_, ?_⟩
  · show (finalFrame clf df tweets).getCol "Predicted_Sentiment" = _
    rw [getCol_finalFrame_other _ _ _ _ (by decide) (by decide),
      getCol_frameWithScores_pred]
  · simp [length_labelsOf]
  · intro i hi
    simp only [labelsOf, classifyPass, List.getElem?_map,
      List.getElem?_eq_getElem hi, List.getD_eq_getElem?_getD,
      Option.map_some', Option.getD_some]

/-- C9, witness: the theorem applied to the concrete frame `dfMix` whose
tweet cells are NaN and a number (no strings at all). -/
theorem C9_coercion_witness :
    DataFrame.getCol dfMix "tweet" = some [Cell.nan, Cell.num 3] ∧
    (∃ out, analyze clf0 dfMix = .ok out ∧
    ∃ predCol, out.df.getCol "Predicted_Sentiment" = some predCol ∧
      predCol.length = ([Cell.nan, Cell.num 3] : Column).length ∧
      ∀ i, i < ([Cell.nan, Cell.num 3] : Column).length →
        predCol[i]? = some (Cell.str
          ((clf0 (cellToString (([Cell.nan, Cell.num 3] : Column).getD i
            Cell.nan))).1))) :=
  ⟨rfl, C9_coercion clf0 dfMix [Cell.nan, Cell.num 3] rfl⟩

/-! Claim C7. -/

/-- The five derived column names, in the order the handler assigns
them. -/
def derivedNames : List String :=
  ["Predicted_Sentiment", "Confidence", "Sentiment_Score", "Trend_Index",
    "Rolling_Sentiment"]

theorem setCol_chain_append (df : DataFrame) (vP vC vS vT vR : Column)
    (hP : df.getCol "Predicted_Sentiment" = none)
    (hC : df.getCol "Confidence" = none)
    (hS : df.getCol "Sentiment_Score" = none)
    (hT : df.getCol "Trend_Index" = none)
    (hR : df.getCol "Rolling_Sentiment" = none) :
    ((((df.setCol "Predicted_Sentiment" vP).setCol "Confidence" vC).setCol
      "Sentiment_Score" vS).setCol "Trend_Index" vT).setCol
      "Rolling_Sentiment" vR =
    df ++ [("Predicted_Sentiment", vP), ("Confidence", vC),
      ("Sentiment_Score", vS), ("Trend_Index", vT),
      ("Rolling_Sentiment", vR)] := by
  have e1 := DataFrame.setCol_of_getCol_none hP vP
  have hC1 : (df ++ [("Predicted_Sentiment", vP)]).getCol "Confidence" =
      none := DataFrame.getCol_append_singleton_ne (by decide) hC
  have e2 := DataFrame.setCol_of_getCol_none hC1 vC
  have hS1 : (df ++ [("Predicted_Sentiment", vP)]).getCol "Sentiment_Score" =
      none := DataFrame.getCol_append_singleton_ne (by decide) hS
  have hS2 : ((df ++ [("Predicted_Sentiment", vP)]) ++
      [("Confidence", vC)]).getCol "Sentiment_Score" = none :=
    DataFrame.getCol_append_singleton_ne (by decide) hS1
  have e3 := DataFrame.setCol_of_getCol_none hS2 vS
  have hT1 : (df ++ [("Predicted_Sentiment", vP)]).getCol "Trend_Index" =
      none := DataFrame.getCol_append_singleton_ne (by decide) hT
  have hT2 : ((df ++ [("Predicted_Sentiment", vP)]) ++
      [("Confidence", vC)]).getCol "Trend_Index" = none :=
    DataFrame.getCol_append_singleton_ne (by decide) hT1
  have hT3 : (((df ++ [("Predicted_Sentiment", vP)]) ++
      [("Confidence", vC)]) ++ [("Sentiment_Score", vS)]).getCol
      "Trend_Index" = none :=
    DataFrame.getCol_append_singleton_ne (by decide) hT2
  have e4 := DataFrame.setCol_of_getCol_none hT3 vT
  have hR1 : (df ++ [("Predicted_Sentiment", vP)]).getCol
      "Rolling_Sentiment" = none :=
    DataFrame.getCol_append_singleton_ne (by decide) hR
  have hR2 : ((df ++ [("Predicted_Sentiment", vP)]) ++
      [("Confidence", vC)]).getCol "Rolling_Sentiment" = none :=
    DataFrame.getCol_append_singleton_ne (by decide) hR1
  have hR3 : (((df ++ [("Predicted_Sentiment", vP)]) ++
      [("Confidence", vC)]) ++ [("Sentiment_Score", vS)]).getCol
      "Rolling_Sentiment" = none :=
    DataFrame.getCol_append_singleton_ne (by decide) hR2
  have hR4 : ((((df ++ [("Predicted_Sentiment", vP)]) ++
      [("Confidence", vC)]) ++ [("Sentiment_Score", vS)]) ++
      [("Trend_Index", vT)]).getCol "Rolling_Sentiment" = none :=
    DataFrame.getCol_append_singleton_ne (by decide) hR3
  have e5 := DataFrame.setCol_of_getCol_none hR4 vR
  rw [e1, e2, e3, e4, e5]
  simp [List.append_assoc]

/-- C7, amended: provided no input column bears one of the five derived
names, the exported frame is the input frame with every original column
and value unchanged, followed by exactly the derived columns
`Predicted_Sentiment`, `Confidence`, `Sentiment_Score`, `Trend_Index`,
`Rolling_Sentiment` in that order. -/
theorem C7_export (clf : Classifier) (df : DataFrame) (tweets : Column)
    (h : df.getCol "tweet" = some tweets)
    (hfresh : ∀ nm ∈ derivedNames, df.getCol nm = none) :
    ∃ out, analyze clf df = .ok out ∧
      out.df.names = df.names ++ derivedNames ∧
      (∀ nm c, df.getCol nm = some c → out.df.getCol nm = some c) := by
  have hP := hfresh "Predicted_Sentiment" (by simp [derivedNames])
  have hC := hfresh "Confidence" (by simp [derivedNames])
  have hS := hfresh "Sentiment_Score" (by simp [derivedNames])
  have hT := hfresh "Trend_Index" (by simp [derivedNames])
  have hR := hfresh "Rolling_Sentiment" (by simp [derivedNames])
  have hff : finalFrame clf df tweets =
      df ++ [("Predicted_Sentiment", (labelsOf clf tweets).map Cell.str),
        ("Confidence", (confsOf clf tweets).map Cell.num),
        ("Sentiment_Score", (scoresOf clf tweets).map Cell.num),
        ("Trend_Index", (List.range (frameWithScores clf df tweets).nrows).map
          (fun i => Cell.num (i : ℚ))),
        ("Rolling_Sentiment",
          (rollingMean 20 (scoresOf clf tweets)).map rollCell)] := by
    rw [finalFrame, frameWithScores]
    exact setCol_chain_append df _ _ _ _ _ hP hC hS hT hR
  refine ⟨okOutput clf df tweets, analyze_eq_ok clf df tweets h, ?_, ?_⟩
  · show (finalFrame clf df tweets).names = _
    rw [hff, DataFrame.names_append]
    simp [DataFrame.names, derivedNames]
  · intro nm c hc
    show (finalFrame clf df tweets).getCol nm = some c
    rw [hff]
    exact DataFrame.getCol_append_left _ hc

/-- C7, witness: the amended theorem applied to the concrete one-row frame
`df0`, whose column names avoid the derived names. -/
theorem C7_export_witness :
    DataFrame.getCol df0 "tweet" = some [Cell.str "hi"] ∧
    (∀ nm ∈ derivedNames, DataFrame.getCol df0 nm = none) ∧
    (∃ out, analyze clf0 df0 = .ok out ∧
      out.df.names = df0.names ++ derivedNames ∧
      (∀ nm c, df0.getCol nm = some c → out.df.getCol nm = some c)) :=
  ⟨rfl, by decide, C7_export clf0 df0 [Cell.str "hi"] rfl (by decide)⟩

/-- C7, counterexample to the claim as stated: on an input frame that
already has a column named `Confidence` (original value 7), the analysis
overwrites that original column in place — the exported value is the
classifier confidence 1/2, not the original 7 — so not every original
column survives unchanged. -/
theorem C7_counterexample :
    dfClash.getCol "Confidence" = some [Cell.num 7] ∧
    analyze clf0 dfClash = .ok (okOutput clf0 dfClash [Cell.str "a"]) ∧
    (okOutput clf0 dfClash [Cell.str "a"]).df.getCol "Confidence" =
      some [Cell.num (1 / 2)] ∧
    ¬ ((okOutput clf0 dfClash [Cell.str "a"]).df.getCol "Confidence" =
      some [Cell.num 7]) := by
  have h3 : (okOutput clf0 dfClash [Cell.str "a"]).df.getCol "Confidence" =
      some [Cell.num (1 / 2)] := rfl
  refine ⟨rfl, rfl, h3, ?_⟩
  intro hEq
  rw [h3] at hEq
  norm_num at hEq

end SentimentApp
